import Mathlib

/-!
Shallow embedding of the VCAN virtual bus library (src/vcan.c with the
constants and enum of src/inc/vcan.h, the header whose identifiers
vcan.c uses).

Modelling conventions:
* C pointers are natural numbers (`Ptr`); the null pointer is `0`, as
  after `memset(..., 0, ...)`. Pointer comparison is `Nat` equality.
* Node objects live in a heap `Heap : Ptr → vcan_node_t`; the bus value
  is passed and returned explicitly. A nullable bus or message argument
  is an `Option`.
* The fixed C array `vcan_node_t* nodes[VCAN_MAX_CONNECTED_NODES]` is a
  list of pointers of length `VCAN_MAX_CONNECTED_NODES` (invariant
  carried as a hypothesis where it matters); the registry proper is its
  prefix of length `connected`.
* A callback is a C function pointer; its behaviour is a parameter
  `cb : CbSem` giving, for each function-pointer value, the node state
  after the callback returns.  Callbacks that re-enter the bus are out
  of scope (the claims assume callbacks do not invoke bus operations),
  so a callback transforms only the node it is invoked on.
* `vcan_tx` additionally returns a delivery trace: the list of
  (node pointer, message content written into that node) pairs, in the
  order that the copy-then-callback step ran.
-/

set_option autoImplicit false

namespace VCAN

/-- Pointer value; 0 is NULL. -/
abbrev Ptr : Type := Nat

/-- From src/inc/vcan.h: max amount of virtual nodes connected to the bus. -/
def VCAN_MAX_CONNECTED_NODES : Nat := 16

/-- From src/inc/vcan.h: max payload size of a CAN message in bytes. -/
def VCAN_DATA_MAX_LEN : Nat := 64

/-- VCAN error codes, from src/inc/vcan.h. -/
inductive vcan_err_t : Type where
  | VCAN_OK
  | VCAN_NULL_BUS
  | VCAN_NULL_MSG
  | VCAN_NULL_NODE
  | VCAN_NULL_CALLBACK
  | VCAN_TOO_MANY_CONNECTED
  | VCAN_NODE_NOT_FOUND
  | VCAN_ALREADY_CONNECTED
deriving DecidableEq, Repr

open vcan_err_t

/-- Message to transmit or receive: id, used length, payload bytes. -/
structure vcan_msg_t : Type where
  id : Nat
  len : Nat
  data : List Nat
deriving DecidableEq, Repr

/-- Virtual node: rx callback (a function pointer), opaque custom data,
the inbox holding the last received message, and a caller-chosen id. -/
structure vcan_node_t : Type where
  callback_on_rx : Ptr
  other_custom_data : Nat
  received_msg : vcan_msg_t
  id : Nat
deriving DecidableEq, Repr

/-- Virtual bus: the fixed node-pointer array and the connected count. -/
structure vcan_bus_t : Type where
  nodes : List Ptr
  connected : Nat
deriving DecidableEq, Repr

/-- The node heap: contents of memory at each node pointer. -/
abbrev Heap : Type := Ptr → vcan_node_t

/-- Heap update at one pointer. -/
def hupd (h : Heap) (p : Ptr) (n : vcan_node_t) : Heap :=
  fun q => if q = p then n else h q

/-- Semantics of callback function pointers: `cb f n` is the state of the
node `n` after the callback at function pointer `f` returns, having been
invoked on that node. -/
abbrev CbSem : Type := Ptr → vcan_node_t → vcan_node_t

/-- The all-zero message, as left by `memset(bus, 0, sizeof(vcan_bus_t))`. -/
def zeroMsg : vcan_msg_t :=
  { id := 0, len := 0, data := List.replicate VCAN_DATA_MAX_LEN 0 }

/-- The all-zero node, the heap content we use for unallocated pointers. -/
def zeroNode : vcan_node_t :=
  { callback_on_rx := 0, other_custom_data := 0, received_msg := zeroMsg, id := 0 }

/-- The zeroed bus: all array slots NULL, connected 0. -/
def zeroBus : vcan_bus_t :=
  { nodes := List.replicate VCAN_MAX_CONNECTED_NODES 0, connected := 0 }

/-- Embedding of `vcan_init` (src/vcan.c lines 11-24): NULL check, then
`memset(bus, 0, sizeof(vcan_bus_t))`. -/
def vcan_init (bus : Option vcan_bus_t) : vcan_err_t × Option vcan_bus_t :=
  match bus with
  | none => (VCAN_NULL_BUS, none)
  | some _ => (VCAN_OK, some zeroBus)

/-- Embedding of `vcan_connect` (src/vcan.c lines 54-90).  The scan loop
`for i < connected: if nodes[i] == node then err = ALREADY_CONNECTED`
is rendered as membership of `node` in the registry prefix.  The store
`bus->nodes[bus->connected++] = node` is `List.set` at `connected`.
The heap is returned unchanged: the function only reads the node. -/
def vcan_connect (h : Heap) (bus : Option vcan_bus_t) (node : Ptr) :
    vcan_err_t × Option vcan_bus_t × Heap :=
  match bus with
  | none => (VCAN_NULL_BUS, none, h)
  | some b =>
    if node = 0 then
      (VCAN_NULL_NODE, some b, h)
    else if (h node).callback_on_rx = 0 then
      (VCAN_NULL_CALLBACK, some b, h)
    else if VCAN_MAX_CONNECTED_NODES ≤ b.connected then
      (VCAN_TOO_MANY_CONNECTED, some b, h)
    else if node ∈ b.nodes.take b.connected then
      (VCAN_ALREADY_CONNECTED, some b, h)
    else
      (VCAN_OK, some { nodes := b.nodes.set b.connected node,
                       connected := b.connected + 1 }, h)

/-- Effect of the `memmove(&bus->nodes[i], &bus->nodes[i+1],
(cnt - i - 1) * sizeof(vcan_node_t*))` in `vcan_disconnect`: slots
`i .. cnt-2` take the old values of slots `i+1 .. cnt-1`; every slot
from `cnt-1` on keeps its old value. -/
def memmoveShift (l : List Ptr) (i : Nat) (cnt : Nat) : List Ptr :=
  l.take i ++ (l.drop (i + 1)).take (cnt - i - 1) ++ l.drop (cnt - 1)

/-- Embedding of `vcan_disconnect` (src/vcan.c lines 92-121).  The search
loop with `break` at the first match is `findIdx?` on the registry
prefix.  Note that the C loop body performs the memmove and sets
`err = VCAN_OK` but never decrements `bus->connected`; the embedding
reproduces that: `connected` is returned unchanged. -/
def vcan_disconnect (bus : Option vcan_bus_t) (node : Ptr) :
    vcan_err_t × Option vcan_bus_t :=
  match bus with
  | none => (VCAN_NULL_BUS, none)
  | some b =>
    if node = 0 then
      (VCAN_NULL_NODE, some b)
    else
      match (b.nodes.take b.connected).findIdx? (fun p => p = node) with
      | none => (VCAN_NODE_NOT_FOUND, some b)
      | some i =>
        (VCAN_OK, some { nodes := memmoveShift b.nodes i b.connected,
                         connected := b.connected })

/-- Body of the dispatch loop of `vcan_tx` (src/vcan.c lines 41-49) over
the registry prefix `slots`: for each slot `p`, if `src ≠ p`, copy the
message into `p`'s inbox (`memcpy`), then invoke `p`'s callback; record
the delivery `(p, content written)` in the trace. -/
def txLoop (cb : CbSem) (slots : List Ptr) (m : vcan_msg_t) (src : Ptr)
    (h : Heap) : Heap × List (Ptr × vcan_msg_t) :=
  match slots with
  | [] => (h, [])
  | p :: rest =>
    if src ≠ p then
      let n1 : vcan_node_t := { h p with received_msg := m }
      let n2 : vcan_node_t := cb n1.callback_on_rx n1
      let res := txLoop cb rest m src (hupd h p n2)
      (res.1, (p, n1.received_msg) :: res.2)
    else
      txLoop cb rest m src h

/-- Embedding of `vcan_tx` (src/vcan.c lines 26-52): NULL checks on bus
and msg, then the dispatch loop.  The bus value is returned as well: the
function body never writes any bus field. -/
def vcan_tx (cb : CbSem) (bus : Option vcan_bus_t) (msg : Option vcan_msg_t)
    (src : Ptr) (h : Heap) :
    vcan_err_t × Option vcan_bus_t × Heap × List (Ptr × vcan_msg_t) :=
  match bus with
  | none => (VCAN_NULL_BUS, none, h, [])
  | some b =>
    match msg with
    | none => (VCAN_NULL_MSG, some b, h, [])
    | some m =>
      let res := txLoop cb (b.nodes.take b.connected) m src h
      (VCAN_OK, some b, res.1, res.2)

/-! Concrete fixtures used by witnesses and counterexamples: three nodes
at pointers 1, 2, 3, all with a non-null callback (function pointer 7)
whose behaviour is the identity on the node (the `does_nothing` callback
of the test suite), and the message of the README scenario. -/

/-- Callback semantics where every callback returns without mutating the
node (the test suite's `does_nothing`). -/
def cbId : CbSem := fun _ n => n

/-- Heap holding three nodes at pointers 1, 2, 3 with callback pointer 7. -/
def heapABC : Heap := fun p =>
  if p = 1 then { callback_on_rx := 7, other_custom_data := 0, received_msg := zeroMsg, id := 1 }
  else if p = 2 then { callback_on_rx := 7, other_custom_data := 0, received_msg := zeroMsg, id := 2 }
  else if p = 3 then { callback_on_rx := 7, other_custom_data := 0, received_msg := zeroMsg, id := 3 }
  else zeroNode

/-- The README/scenario message: id 0xABCD, len 3, data 00 1A 2B. -/
def msgABC : vcan_msg_t := { id := 0xABCD, len := 3, data := [0x00, 0x1A, 0x2B] }

/-- Bus with the single node 1 connected. -/
def busOne : vcan_bus_t := { nodes := 1 :: List.replicate 15 0, connected := 1 }

/-- Bus with nodes 1 and 2 connected, in that order. -/
def busTwo : vcan_bus_t := { nodes := 1 :: 2 :: List.replicate 14 0, connected := 2 }

/-- Bus state actually produced by `vcan_disconnect busTwo 1`: slot 1
still holds the stale copy of node 2 and `connected` is still 2. -/
def busTwoDup : vcan_bus_t := { nodes := 2 :: 2 :: List.replicate 14 0, connected := 2 }

/-- Bus reached by connecting nodes 1, 2, 3 in order to a fresh bus. -/
def busABC : Option vcan_bus_t :=
  (vcan_connect heapABC
    (vcan_connect heapABC
      (vcan_connect heapABC (vcan_init (some zeroBus)).2 1).2.1 2).2.1 3).2.1

/-- Explicit value of `busABC`. -/
def busABCval : vcan_bus_t :=
  { nodes := 1 :: 2 :: 3 :: List.replicate 13 0, connected := 3 }

/-! Helper lemmas about the dispatch loop. -/

/-- The delivery trace of the dispatch loop: exactly the slots different
from the source, in slot order, each receiving the full message. -/
theorem txLoop_trace (cb : CbSem) (m : vcan_msg_t) (src : Ptr) :
    ∀ (slots : List Ptr) (h : Heap),
      (txLoop cb slots m src h).2
        = (slots.filter (fun p => p != src)).map (fun p => (p, m)) := by
  intro slots
  induction slots with
  | nil =>
    intro h
    rfl
  | cons p rest ih =>
    intro h
    by_cases hsp : src = p
    · subst hsp
      simp [txLoop, List.filter_cons, ih]
    · simp [txLoop, hsp, List.filter_cons, bne_iff_ne, Ne.symm hsp, ih]

/-- Frame property of the dispatch loop: the heap is unchanged at every
pointer that is not delivered to. -/
theorem txLoop_frame (cb : CbSem) (m : vcan_msg_t) (src : Ptr) :
    ∀ (slots : List Ptr) (h : Heap) (q : Ptr),
      q ∉ slots.filter (fun p => p != src) →
      (txLoop cb slots m src h).1 q = h q := by
  intro slots
  induction slots with
  | nil =>
    intro h q _
    rfl
  | cons p rest ih =>
    intro h q hq
    by_cases hsp : src = p
    · subst hsp
      simp only [List.filter_cons, bne_self_eq_false, if_false, Bool.false_eq_true,
        if_neg] at hq
      simpa [txLoop] using ih h q hq
    · have hp : (p != src) = true := by
        simp [bne_iff_ne, Ne.symm hsp]
      rw [List.filter_cons, if_pos (by simp [hp])] at hq
      rw [List.mem_cons] at hq
      push_neg at hq
      have hstep : (txLoop cb (p :: rest) m src h).1
          = (txLoop cb rest m src
              (hupd h p (cb ({ h p with received_msg := m }).callback_on_rx
                { h p with received_msg := m }))).1 := by
        simp [txLoop, hsp]
      rw [hstep, ih _ q hq.2, hupd]
      simp [hq.1]

/-- The source pointer is never delivered to, hence its heap cell is
untouched by the dispatch loop. -/
theorem txLoop_src_untouched (cb : CbSem) (m : vcan_msg_t) (src : Ptr)
    (slots : List Ptr) (h : Heap) :
    (txLoop cb slots m src h).1 src = h src := by
  apply txLoop_frame
  intro hmem
  rcases List.mem_filter.mp hmem with ⟨-, hne⟩
  exact (bne_iff_ne.mp hne) rfl

/-- Setting index `i` of a list and taking `i + 1` elements appends the
new element to the unchanged `i`-prefix. -/
theorem take_set_succ (a : Ptr) :
    ∀ (l : List Ptr) (i : Nat), i < l.length →
      (l.set i a).take (i + 1) = l.take i ++ [a] := by
  intro l
  induction l with
  | nil =>
    intro i hi
    simp at hi
  | cons x xs ih =>
    intro i hi
    cases i with
    | zero => simp
    | succ j =>
      have hj : j < xs.length := by simpa using hi
      simp [List.take_succ_cons, ih j hj]

/-- Claim C1: the spec says a successful disconnect removes the matching
reference, keeps the sequence contiguous and decrements the connected
count by one.  The code performs the memmove and returns OK but never
decrements `bus->connected`: disconnecting the only node of `busOne`
returns OK with the bus completely unchanged and the count still 1,
contradicting the claim (and the repository's own test
`test_disconnect_valid`, which asserts the count becomes 0). -/
theorem disconnect_count_not_decremented :
    vcan_disconnect (some busOne) 1 = (VCAN_OK, some busOne) ∧
    busOne.connected = 1 := by
  decide

/-- Claim C2: the spec says every operation preserves the invariant
`0 ≤ connected ≤ capacity` with no duplicate references in the registry
prefix.  Because `vcan_disconnect` shifts the tail down without
decrementing `connected`, disconnecting node 1 from the duplicate-free
two-node bus `busTwo` (reachable from an initialised bus by two
connects, as the first conjunct shows) yields a registry prefix
`[2, 2]` with a duplicate reference, violating the invariant. -/
theorem disconnect_breaks_invariant :
    (vcan_connect heapABC
      (vcan_connect heapABC (vcan_init (some zeroBus)).2 1).2.1 2).2.1
      = some busTwo ∧
    (busTwo.nodes.take busTwo.connected).Nodup ∧
    vcan_disconnect (some busTwo) 1 = (VCAN_OK, some busTwoDup) ∧
    ¬ (busTwoDup.nodes.take busTwoDup.connected).Nodup := by
  decide

/-- Claim C3: the scenario connects nodes 1 (A), 2 (B), 3 (C); the first
transmission from A correctly delivers to B then C with the full message
(second conjunct, matching the claim).  But after disconnecting B the
registry prefix is `[1, 3, 3]` with `connected` still 3, so the second
transmission from A delivers the message to C twice, not exactly once as
the claim (and the repository's own README example test) states. -/
theorem scenario_double_delivery :
    busABC = some busABCval ∧
    (vcan_tx cbId busABC (some msgABC) 1 heapABC).2.2.2
      = [(2, msgABC), (3, msgABC)] ∧
    (vcan_disconnect busABC 2).1 = VCAN_OK ∧
    (vcan_tx cbId (vcan_disconnect busABC 2).2 (some msgABC) 1 heapABC).2.2.2
      = [(3, msgABC), (3, msgABC)] := by
  decide

/-- Claim C4: with non-null bus and message, `vcan_tx` returns OK and its
delivery trace is exactly the registry prefix in ascending index order
with the entries identical to the source filtered out, each receiving
the full message content and having its callback invoked (a trace entry
is recorded at the copy-and-callback step); the source's heap cell is
untouched, so the source receives neither the copy nor a callback. -/
theorem tx_delivery_spec (cb : CbSem) (h : Heap) (b : vcan_bus_t)
    (m : vcan_msg_t) (src : Ptr) :
    (vcan_tx cb (some b) (some m) src h).1 = VCAN_OK ∧
    (vcan_tx cb (some b) (some m) src h).2.2.2
      = ((b.nodes.take b.connected).filter (fun p => p != src)).map
          (fun p => (p, m)) ∧
    (vcan_tx cb (some b) (some m) src h).2.2.1 src = h src := by
  refine ⟨rfl, ?_, ?_⟩
  · simpa [vcan_tx] using txLoop_trace cb m src (b.nodes.take b.connected) h
  · simpa [vcan_tx] using txLoop_src_untouched cb m src (b.nodes.take b.connected) h

/-- Claim C5: `vcan_connect` returns the first applicable error in the
exact precedence order NullBus, NullNode, NullCallback, TooManyConnected,
AlreadyConnected, and succeeds exactly when none of the five conditions
applies. -/
theorem connect_error_precedence (h : Heap) (b : vcan_bus_t) (node : Ptr) :
    (vcan_connect h none node).1 = VCAN_NULL_BUS ∧
    (vcan_connect h (some b) node).1 =
      (if node = 0 then VCAN_NULL_NODE
       else if (h node).callback_on_rx = 0 then VCAN_NULL_CALLBACK
       else if VCAN_MAX_CONNECTED_NODES ≤ b.connected then VCAN_TOO_MANY_CONNECTED
       else if node ∈ b.nodes.take b.connected then VCAN_ALREADY_CONNECTED
       else VCAN_OK) ∧
    ((vcan_connect h (some b) node).1 = VCAN_OK ↔
      node ≠ 0 ∧ (h node).callback_on_rx ≠ 0 ∧
      b.connected < VCAN_MAX_CONNECTED_NODES ∧
      node ∉ b.nodes.take b.connected) := by
  refine ⟨rfl, ?_, ?_⟩
  · simp only [vcan_connect]
    split_ifs <;> rfl
  · simp only [vcan_connect]
    split_ifs with h1 h2 h3 h4 <;> simp_all

/-- Claim C6: a valid connect below capacity of an unregistered node with
a non-null callback returns OK, stores the node at index `connected` and
increments the count, so the registry prefix becomes the old prefix with
the node appended at the end; the heap (hence the node object) is
returned unmutated. -/
theorem connect_success_appends (h : Heap) (b : vcan_bus_t) (node : Ptr)
    (hlen : b.nodes.length = VCAN_MAX_CONNECTED_NODES)
    (hnode : node ≠ 0)
    (hcb : (h node).callback_on_rx ≠ 0)
    (hcap : b.connected < VCAN_MAX_CONNECTED_NODES)
    (hmem : node ∉ b.nodes.take b.connected) :
    vcan_connect h (some b) node
      = (VCAN_OK, some { nodes := b.nodes.set b.connected node,
                         connected := b.connected + 1 }, h) ∧
    (b.nodes.set b.connected node).take (b.connected + 1)
      = b.nodes.take b.connected ++ [node] := by
  constructor
  · simp [vcan_connect, hnode, hcb, Nat.not_le.mpr hcap, hmem]
  · exact take_set_succ node b.nodes b.connected (by omega)

/-- Witness for claim C6: connecting node 1 to the freshly initialised
bus satisfies all preconditions and appends node 1 as the only entry. -/
theorem connect_success_appends_witness :
    (zeroBus.nodes.length = VCAN_MAX_CONNECTED_NODES ∧ (1 : Ptr) ≠ 0 ∧
     (heapABC 1).callback_on_rx ≠ 0 ∧
     zeroBus.connected < VCAN_MAX_CONNECTED_NODES ∧
     (1 : Ptr) ∉ zeroBus.nodes.take zeroBus.connected) ∧
    vcan_connect heapABC (some zeroBus) 1
      = (VCAN_OK, some { nodes := zeroBus.nodes.set zeroBus.connected 1,
                         connected := zeroBus.connected + 1 }, heapABC) ∧
    (zeroBus.nodes.set zeroBus.connected 1).take (zeroBus.connected + 1)
      = zeroBus.nodes.take zeroBus.connected ++ [1] :=
  ⟨⟨by decide, by decide, by decide, by decide, by decide⟩,
   connect_success_appends heapABC zeroBus 1
     (by decide) (by decide) (by decide) (by decide) (by decide)⟩

/-- Claim C7: whenever any of the three mutating operations returns an
error, the bus (and the heap, and for transmit the delivery trace) are
exactly as before the call: no partial mutation on a failing call. -/
theorem error_leaves_state_unchanged (cb : CbSem) (h : Heap)
    (bus : Option vcan_bus_t) (msg : Option vcan_msg_t) (node src : Ptr) :
    ((vcan_connect h bus node).1 ≠ VCAN_OK →
      (vcan_connect h bus node).2 = (bus, h)) ∧
    ((vcan_disconnect bus node).1 ≠ VCAN_OK →
      (vcan_disconnect bus node).2 = bus) ∧
    ((vcan_tx cb bus msg src h).1 ≠ VCAN_OK →
      (vcan_tx cb bus msg src h).2 = (bus, h, [])) := by
  refine ⟨?_, ?_, ?_⟩
  · cases bus with
    | none => intro _; rfl
    | some b =>
      simp only [vcan_connect]
      split_ifs <;> simp
  · cases bus with
    | none => intro _; rfl
    | some b =>
      simp only [vcan_disconnect]
      split_ifs with h1
      · simp
      · rcases hfind : (b.nodes.take b.connected).findIdx? (fun p => p = node)
          with _ | i <;> simp [hfind]
  · cases bus with
    | none => intro _; rfl
    | some b =>
      cases msg with
      | none => intro _; rfl
      | some m => intro hne; exact absurd rfl hne

/-- Witness for claim C7: a connect of a NULL node, a disconnect of an
unregistered node, and a transmit of a NULL message each fail and leave
the state exactly as it was. -/
theorem error_leaves_state_unchanged_witness :
    ((vcan_connect heapABC (some zeroBus) 0).1 ≠ VCAN_OK ∧
      (vcan_connect heapABC (some zeroBus) 0).2 = (some zeroBus, heapABC)) ∧
    ((vcan_disconnect (some zeroBus) 5).1 ≠ VCAN_OK ∧
      (vcan_disconnect (some zeroBus) 5).2 = some zeroBus) ∧
    ((vcan_tx cbId (some zeroBus) none 5 heapABC).1 ≠ VCAN_OK ∧
      (vcan_tx cbId (some zeroBus) none 5 heapABC).2
        = (some zeroBus, heapABC, [])) :=
  ⟨⟨by decide, (error_leaves_state_unchanged cbId heapABC
      (some zeroBus) none 0 5).1 (by decide)⟩,
   ⟨by decide, (error_leaves_state_unchanged cbId heapABC
      (some zeroBus) none 5 5).2.1 (by decide)⟩,
   ⟨by decide, (error_leaves_state_unchanged cbId heapABC
      (some zeroBus) none 5 5).2.2 (by decide)⟩⟩

/-- Claim C8: transmit returns NullBus on an absent bus (whatever the
message argument, so the bus is checked first) and NullMsg on an absent
message; with zero connected nodes it returns OK, delivers to nobody and
changes nothing; with a source that is not in the registry it returns OK
and delivers the message to every connected node. -/
theorem tx_edge_cases (cb : CbSem) (h : Heap) (b : vcan_bus_t)
    (msg : Option vcan_msg_t) (m : vcan_msg_t) (src : Ptr) :
    (vcan_tx cb none msg src h).1 = VCAN_NULL_BUS ∧
    (vcan_tx cb (some b) none src h).1 = VCAN_NULL_MSG ∧
    (b.connected = 0 →
      vcan_tx cb (some b) (some m) src h = (VCAN_OK, some b, h, [])) ∧
    (src ∉ b.nodes.take b.connected →
      (vcan_tx cb (some b) (some m) src h).1 = VCAN_OK ∧
      (vcan_tx cb (some b) (some m) src h).2.2.2
        = (b.nodes.take b.connected).map (fun p => (p, m))) := by
  refine ⟨rfl, rfl, ?_, ?_⟩
  · intro h0
    simp [vcan_tx, h0, txLoop]
  · intro hsrc
    refine ⟨rfl, ?_⟩
    have htr := txLoop_trace cb m src (b.nodes.take b.connected) h
    have hfil : (b.nodes.take b.connected).filter (fun p => p != src)
        = b.nodes.take b.connected := by
      apply List.filter_eq_self.mpr
      intro a ha
      exact bne_iff_ne.mpr (fun he => hsrc (he ▸ ha))
    calc (vcan_tx cb (some b) (some m) src h).2.2.2
        = (txLoop cb (b.nodes.take b.connected) m src h).2 := rfl
      _ = (b.nodes.take b.connected).map (fun p => (p, m)) := by
          rw [htr, hfil]

/-- Witness for claim C8: on the freshly initialised bus, a transmit
with the unregistered source 5 succeeds, delivers to nobody and leaves
everything unchanged. -/
theorem tx_edge_cases_witness :
    (zeroBus.connected = 0 ∧
      vcan_tx cbId (some zeroBus) (some msgABC) 5 heapABC
        = (VCAN_OK, some zeroBus, heapABC, [])) ∧
    ((5 : Ptr) ∉ zeroBus.nodes.take zeroBus.connected ∧
      (vcan_tx cbId (some zeroBus) (some msgABC) 5 heapABC).2.2.2
        = (zeroBus.nodes.take zeroBus.connected).map (fun p => (p, msgABC))) :=
  ⟨⟨by decide, (tx_edge_cases cbId heapABC zeroBus none msgABC 5).2.2.1
      (by decide)⟩,
   ⟨by decide, ((tx_edge_cases cbId heapABC zeroBus none msgABC 5).2.2.2
      (by decide)).2⟩⟩

/-- Claim C9: init returns NullBus exactly when the bus reference is
absent; on any present bus, whatever it contained, it returns OK and the
zeroed bus: connected count 0 and every registry slot NULL. -/
theorem init_spec :
    vcan_init none = (VCAN_NULL_BUS, none) ∧
    (∀ b : vcan_bus_t, vcan_init (some b) = (VCAN_OK, some zeroBus)) ∧
    (∀ bus : Option vcan_bus_t, (vcan_init bus).1 = VCAN_NULL_BUS ↔ bus = none) ∧
    zeroBus.connected = 0 ∧ (∀ q ∈ zeroBus.nodes, q = 0) := by
  refine ⟨rfl, fun b => rfl, ?_, rfl, ?_⟩
  · intro bus
    cases bus <;> simp [vcan_init]
  · intro q hq
    exact List.eq_of_mem_replicate hq

/-- Claim C10: a transmit with non-null bus and message (callbacks being
modelled as acting only on the node they are invoked on, i.e. not
invoking bus operations) returns the bus value unchanged, and the heap
is unchanged at every pointer that is not in the delivery trace:
transmit writes only into the receiving nodes. -/
theorem tx_bus_frame (cb : CbSem) (h : Heap) (b : vcan_bus_t)
    (m : vcan_msg_t) (src : Ptr) :
    (vcan_tx cb (some b) (some m) src h).2.1 = some b ∧
    ∀ q : Ptr,
      q ∉ ((vcan_tx cb (some b) (some m) src h).2.2.2).map Prod.fst →
      (vcan_tx cb (some b) (some m) src h).2.2.1 q = h q := by
  refine ⟨rfl, ?_⟩
  intro q hq
  have htr : (vcan_tx cb (some b) (some m) src h).2.2.2
      = ((b.nodes.take b.connected).filter (fun p => p != src)).map
          (fun p => (p, m)) :=
    txLoop_trace cb m src (b.nodes.take b.connected) h
  rw [htr] at hq
  have hmap : ∀ l : List Ptr, (l.map (fun p => (p, m))).map Prod.fst = l := by
    intro l
    induction l with
    | nil => rfl
    | cons x xs ih => simp [ih]
  rw [hmap] at hq
  exact txLoop_frame cb m src (b.nodes.take b.connected) h q hq

/-- Witness for claim C10: transmitting on the three-node bus from node 1
delivers to nodes 2 and 3 only; the bus value is unchanged and the heap
cell of the uninvolved pointer 99 is untouched. -/
theorem tx_bus_frame_witness :
    ((99 : Ptr) ∉ ((vcan_tx cbId (some busABCval) (some msgABC)
        1 heapABC).2.2.2).map Prod.fst) ∧
    (vcan_tx cbId (some busABCval) (some msgABC) 1 heapABC).2.1
      = some busABCval ∧
    (vcan_tx cbId (some busABCval) (some msgABC) 1 heapABC).2.2.1 99
      = heapABC 99 :=
  ⟨by decide,
   (tx_bus_frame cbId heapABC busABCval msgABC 1).1,
   (tx_bus_frame cbId heapABC busABCval msgABC 1).2 99 (by decide)⟩

end VCAN
